import Mathlib

/-!
Verification of the CppSignal lock-free signal/slot library.

The development shallowly embeds the Registration (Slot) state machine of
src/CppSignal/CppSignal.h and the Subscription handle of
src/CppSignal/CppSignal.cpp.  Machine state that C++ mutates in place is
passed explicitly; the stored callback (a std::function) is modelled by an
optional identifier, where none models an empty function.  Code paths that
may raise a C++ exception (invoking the callback, clearing the callback)
take an explicit behaviour argument of type Except Unit Unit; the source
catches and discards those exceptions, which the embedding mirrors by
matching on the behaviour and continuing identically in both branches.
Sequential (single-thread-at-a-time) executions are modelled; the loops of
Emit and Deallocate that can only terminate through the intervention of
another thread are modelled by an Option result, where none marks such a
blocked execution.
-/

namespace CppSignal

/-- Status enumeration of a Registration, from CppSignal.h lines 50-58. -/
inductive RegistrationStatus where
  | Unknown
  | Empty
  | Populating
  | Used
  | Emitting
  | Destroying
deriving DecidableEq

/-- One registration cell of a Signal: the atomic status and the stored
callback, from CppSignal.h lines 60-61.  The callback models the
std::function member; none models an empty function. -/
structure Registration where
  status : RegistrationStatus
  callback : Option Nat
deriving DecidableEq

/-- Registration.TryAllocate, CppSignal.h lines 144-176 (both overloads act
identically on the state).  CAS Empty to Populating; on failure return
false and leave the cell unchanged.  On success store the callback, then
CAS Populating to Used, which in a sequential execution always succeeds
(the source asserts it).  Returns the new cell and the success flag. -/
def tryAllocate (cb : Nat) (r : Registration) : Registration × Bool :=
  if r.status = .Empty then (⟨.Used, some cb⟩, true) else (r, false)

/-- Registration.Deallocate, CppSignal.h lines 178-224.  clearThrow is the
behaviour of the std::function destructor when the callback is cleared; an
error value models a thrown exception, which the source catches and
discards (lines 193-199), so both branches continue identically.
Sequentially: from Used the CAS to Destroying succeeds, the callback is
cleared and the cell moves to Empty; from Emitting the cell moves to
Destroying and the function returns without touching the callback; from
Empty or Destroying it is a no-op; from Populating or Unknown the switch
default asserts false and the while loop never exits, modelled by none. -/
def deallocate (clearThrow : Except Unit Unit) (r : Registration) :
    Option Registration :=
  match r.status with
  | .Used =>
    match clearThrow with
    | .ok _ => some ⟨.Empty, none⟩
    | .error _ => some ⟨.Empty, none⟩
  | .Emitting => some ⟨.Destroying, r.callback⟩
  | .Empty => some r
  | .Destroying => some r
  | .Populating => none
  | .Unknown => none

/-- Result of the entry loop of Registration.Emit (CppSignal.h lines
229-248): the CAS Used to Emitting succeeded, another thread already holds
Emitting (the caller sleeps and retries), or the cell is in no state that
permits emission and the call returns without invoking anything. -/
inductive EmitEntry where
  | acquired (r : Registration)
  | contended
  | skipped
deriving DecidableEq

/-- Entry loop of Registration.Emit, CppSignal.h lines 229-248. -/
def emitEnter (r : Registration) : EmitEntry :=
  if r.status = .Used then .acquired ⟨.Emitting, r.callback⟩
  else if r.status = .Emitting then .contended
  else .skipped

/-- The tail of Registration.Emit after the callback has returned,
CppSignal.h lines 258-277: CAS Emitting to Used; if that fails the cell
was deallocated during the emission (the source asserts the observed
status is Destroying), so this thread clears the callback (exceptions from
the std::function destructor are caught and discarded, lines 267-273) and
moves the cell to Empty. -/
def emitFinish (clearThrow : Except Unit Unit) (r : Registration) :
    Registration :=
  if r.status = .Emitting then ⟨.Used, r.callback⟩
  else
    match clearThrow with
    | .ok _ => ⟨.Empty, none⟩
    | .error _ => ⟨.Empty, none⟩

/-- Registration.Emit as a whole in a sequential execution, CppSignal.h
lines 226-278.  cbThrow is the behaviour of the invoked callback; an error
value models a thrown exception, caught and discarded by the source (lines
250-256), so both branches continue identically into the finish phase.
Returns the new cell and the callback that was invoked, or none when the
entry loop spins on a cell another thread holds in Emitting. -/
def emit (cbThrow clearThrow : Except Unit Unit) (r : Registration) :
    Option (Registration × Option Nat) :=
  match emitEnter r with
  | .skipped => some (r, none)
  | .contended => none
  | .acquired racq =>
    match cbThrow with
    | .ok _ => some (emitFinish clearThrow racq, racq.callback)
    | .error _ => some (emitFinish clearThrow racq, racq.callback)

/-- Signal construction, CppSignal.h lines 93-96: a fixed vector of
numberOfMaxRegistrations registrations, each default-constructed with
status Empty and an empty callback. -/
def newSignal (c : Nat) : List Registration :=
  List.replicate c ⟨.Empty, none⟩

/-- Signal.Subscribe, CppSignal.h lines 98-133 (both overloads act
identically on the pool): scan the registrations in order, TryAllocate
each; on the first success return the updated pool and the index of the
claimed cell (the Subscription aliases that cell); if no cell accepts, the
source throws std::bad_alloc, modelled by the error result. -/
def subscribe (cb : Nat) : List Registration → Except Unit (List Registration × Nat)
  | [] => .error ()
  | r :: rest =>
    match tryAllocate cb r with
    | (r1, true) => .ok (r1 :: rest, 0)
    | (_, false) =>
      match subscribe cb rest with
      | .ok (l, i) => .ok (r :: l, i + 1)
      | .error e => .error e

/-- Signal.Emit, CppSignal.h lines 135-140: emit every registration of the
pool in order.  Returns, per cell, the new cell and the callback that cell
invoked; none when some cell blocks the sequential execution. -/
def signalEmit (cbThrow clearThrow : Except Unit Unit) :
    List Registration → Option (List (Registration × Option Nat))
  | [] => some []
  | r :: rest =>
    match emit cbThrow clearThrow r, signalEmit cbThrow clearThrow rest with
    | some p, some ps => some (p :: ps)
    | _, _ => none

/-- Sequentially subscribe a list of callbacks, collecting the claimed
indices; the whole run fails if any single Subscribe fails. -/
def subscribeAll (cbs : List Nat) (slots : List Registration) :
    Except Unit (List Registration × List Nat) :=
  match cbs with
  | [] => .ok (slots, [])
  | cb :: rest =>
    match subscribe cb slots with
    | .ok (slots1, i) =>
      match subscribeAll rest slots1 with
      | .ok (slots2, is) => .ok (slots2, i :: is)
      | .error e => .error e
    | .error e => .error e

/-- Deallocate every registration of the pool in order (releasing every
outstanding subscription). -/
def releaseAll (clearThrow : Except Unit Unit) :
    List Registration → Option (List Registration)
  | [] => some []
  | r :: rest =>
    match deallocate clearThrow r, releaseAll clearThrow rest with
    | some r1, some rs => some (r1 :: rs)
    | _, _ => none

/-- A registration cell holding callback cb in the armed state, the state a
cell is left in by a successful TryAllocate. -/
def usedCell (cb : Nat) : Registration := ⟨.Used, some cb⟩

/-- A Subscription handle, CppSignal.h lines 68-89 and CppSignal.cpp: the
weak reference is modelled as an optional index into the pool of the
signal; none models an empty or expired-by-reset weak_ptr. -/
structure Subscription where
  registration : Option Nat
deriving DecidableEq

/-- The world a Subscription operates in: whether the anchoring Publisher
(owner of the shared control block of the aliasing pointer) is still
alive, and the pool of the signal. -/
structure World where
  publisherAlive : Bool
  slots : List Registration
deriving DecidableEq

/-- Subscription.Unsubscribe, CppSignal.cpp lines 33-44: lock the weak
reference (the lock succeeds only while the Publisher lives), then reset
the weak reference unconditionally; if the lock failed, return silently;
otherwise perform the Deallocate transition on the referenced cell.  The
declared release operation of IRegistration is Deallocate (CppSignal.h
line 17); the .cpp spells the virtual call Unsubscribe, an out-of-sync
name for the same release call, embedded here as deallocate. -/
def unsubscribe (clearThrow : Except Unit Unit) (w : World) (s : Subscription) :
    Option (World × Subscription) :=
  let locked := if w.publisherAlive then s.registration else none
  match locked with
  | none => some (w, ⟨none⟩)
  | some i =>
    match w.slots.get? i with
    | none => none
    | some r =>
      match deallocate clearThrow r with
      | some r1 => some ({ w with slots := w.slots.set i r1 }, ⟨none⟩)
      | none => none

/-- Subscription move-assignment, CppSignal.cpp lines 21-31: if the source
is the destination itself, return immediately with nothing changed;
otherwise Unsubscribe the target the destination currently holds, then
move the weak reference out of the source, leaving the source empty.
isSelf models the pointer-identity test this == (address of) other. -/
def moveAssign (clearThrow : Except Unit Unit) (w : World)
    (dst src : Subscription) (isSelf : Bool) :
    Option (World × Subscription × Subscription) :=
  if isSelf then some (w, dst, src)
  else
    match unsubscribe clearThrow w dst with
    | some (w1, _) => some (w1, ⟨src.registration⟩, ⟨none⟩)
    | none => none

/-- Claim C1: Deallocate on an Emitting cell only moves it to Destroying
and returns without clearing the callback; the emitting thread, after the
callback returns and its CAS Emitting to Used fails, observes Destroying,
clears the callback and moves the cell to Empty; the cell ends Empty with
no callback stored, and a subsequent Emit on it invokes nothing. -/
theorem deallocate_during_emission (c : Nat) (cbThrow clearThrow : Except Unit Unit) :
    emitEnter ⟨.Used, some c⟩ = .acquired ⟨.Emitting, some c⟩
    ∧ deallocate clearThrow ⟨.Emitting, some c⟩ = some ⟨.Destroying, some c⟩
    ∧ emitFinish clearThrow ⟨.Destroying, some c⟩ = ⟨.Empty, none⟩
    ∧ emit cbThrow clearThrow ⟨.Empty, none⟩ = some (⟨.Empty, none⟩, none) := by
  refine ⟨rfl, rfl, ?_, ?_⟩
  · cases clearThrow <;> rfl
  · rfl

/-- Claim C2: once the status of a cell has returned to Empty, a
Signal.Emit over the whole pool leaves that cell unchanged and invokes no
callback from it. -/
theorem emit_skips_released (cbThrow clearThrow : Except Unit Unit)
    (slots : List Registration) (i : Nat) (r : Registration)
    (out : List (Registration × Option Nat))
    (hget : slots.get? i = some r) (hstat : r.status = .Empty)
    (hrun : signalEmit cbThrow clearThrow slots = some out) :
    out.get? i = some (r, none) := by
  induction slots generalizing i out with
  | nil => simp at hget
  | cons s rest ih =>
    rw [signalEmit] at hrun
    cases he : emit cbThrow clearThrow s with
    | none => rw [he] at hrun; cases hrun
    | some p =>
      cases hrest : signalEmit cbThrow clearThrow rest with
      | none => rw [he, hrest] at hrun; cases hrun
      | some ps =>
        rw [he, hrest] at hrun
        cases hrun
        cases i with
        | zero =>
          simp only [List.get?] at hget
          cases hget
          have key : emit cbThrow clearThrow r = some (r, none) := by
            simp [emit, emitEnter, hstat]
          rw [key] at he
          cases he
          rfl
        | succ j =>
          simp only [List.get?] at hget ⊢
          exact ih j ps hget hrest

/-- Witness for emit_skips_released at a concrete pool: one armed cell after
one released cell. -/
theorem emit_skips_released_witness :
    ((⟨.Empty, none⟩ : Registration) :: [⟨.Used, some 4⟩]).get? 0 =
        some (⟨.Empty, none⟩ : Registration)
    ∧ (Registration.mk .Empty none).status = .Empty
    ∧ signalEmit (.ok ()) (.ok ()) [⟨.Empty, none⟩, ⟨.Used, some 4⟩] =
        some [(⟨.Empty, none⟩, none), (⟨.Used, some 4⟩, some 4)]
    ∧ (([(⟨.Empty, none⟩, none), (⟨.Used, some 4⟩, some 4)] :
        List (Registration × Option Nat)).get? 0 =
        some (⟨.Empty, none⟩, none)) :=
  ⟨rfl, rfl, rfl,
    emit_skips_released (.ok ()) (.ok ()) [⟨.Empty, none⟩, ⟨.Used, some 4⟩] 0
      ⟨.Empty, none⟩ [(⟨.Empty, none⟩, none), (⟨.Used, some 4⟩, some 4)]
      rfl rfl rfl⟩

/-- Claim C5: Deallocate on a cell whose status is already Empty or
Destroying is a no-op, leaving the status and the callback of the cell
unchanged, whatever the behaviour of the callback destructor would be. -/
theorem deallocate_idempotent (clearThrow : Except Unit Unit) (r : Registration)
    (h : r.status = .Empty ∨ r.status = .Destroying) :
    deallocate clearThrow r = some r := by
  rcases h with h | h <;> simp [deallocate, h]

/-- Witness for deallocate_idempotent on a cell left in Destroying with its
callback still stored (the deferred-release state). -/
theorem deallocate_idempotent_witness :
    ((⟨.Destroying, some 9⟩ : Registration).status = .Empty
      ∨ (⟨.Destroying, some 9⟩ : Registration).status = .Destroying)
    ∧ deallocate (.ok ()) ⟨.Destroying, some 9⟩ = some ⟨.Destroying, some 9⟩ :=
  ⟨Or.inr rfl, deallocate_idempotent (.ok ()) ⟨.Destroying, some 9⟩ (Or.inr rfl)⟩

/-- Claim C6: an error raised by the callback during Emit, or while the
stored callback is cleared during a release, is discarded where it occurs
and never reaches the caller (the results below do not depend on the
throw behaviours, and the result types carry no error); the pending
status transition still completes: a whole Emit of an armed cell ends back
in Used, the deferred-release finish ends in Empty, and a Deallocate of an
armed cell ends in Empty. -/
theorem callback_faults_discarded (cbThrow clearThrow : Except Unit Unit) (c : Nat) :
    emit cbThrow clearThrow ⟨.Used, some c⟩ = some (⟨.Used, some c⟩, some c)
    ∧ emitFinish clearThrow ⟨.Destroying, some c⟩ = ⟨.Empty, none⟩
    ∧ deallocate clearThrow ⟨.Used, some c⟩ = some ⟨.Empty, none⟩ := by
  refine ⟨?_, ?_, ?_⟩ <;> cases cbThrow <;> cases clearThrow <;> rfl

/-- Claim C7: when the anchoring Publisher has been destroyed, Unsubscribe
is a silent no-op: it succeeds, touches no cell of the pool, and only
resets the weak reference of the handle. -/
theorem unsubscribe_publisher_gone (clearThrow : Except Unit Unit)
    (w : World) (s : Subscription) (h : w.publisherAlive = false) :
    unsubscribe clearThrow w s = some (w, ⟨none⟩) := by
  rw [unsubscribe, h]
  rfl

/-- Witness for unsubscribe_publisher_gone: a dead Publisher over a pool
with one armed cell, and a handle still naming that cell. -/
theorem unsubscribe_publisher_gone_witness :
    (World.mk false [⟨.Used, some 3⟩]).publisherAlive = false
    ∧ unsubscribe (.ok ()) ⟨false, [⟨.Used, some 3⟩]⟩ ⟨some 0⟩ =
        some (⟨false, [⟨.Used, some 3⟩]⟩, ⟨none⟩) :=
  ⟨rfl, unsubscribe_publisher_gone (.ok ()) ⟨false, [⟨.Used, some 3⟩]⟩ ⟨some 0⟩ rfl⟩

/-- Claim C9: move-assignment with distinct handles first unsubscribes the
target the destination currently holds (the resulting world is exactly the
world unsubscribing the destination produces, synchronously), then moves
the weak reference of the source into the destination and leaves the
source empty; unsubscribing an empty handle (as the later destructor of
the source does) changes nothing; self-move-assignment changes neither
the handles nor the world. -/
theorem move_assignment (clearThrow : Except Unit Unit) (w : World)
    (dst src : Subscription) :
    moveAssign clearThrow w dst src true = some (w, dst, src)
    ∧ (∀ w1 d1, unsubscribe clearThrow w dst = some (w1, d1) →
        moveAssign clearThrow w dst src false =
          some (w1, ⟨src.registration⟩, ⟨none⟩))
    ∧ (∀ w2, unsubscribe clearThrow w2 ⟨none⟩ = some (w2, ⟨none⟩)) := by
  refine ⟨rfl, ?_, ?_⟩
  · intro w1 d1 h
    rw [moveAssign, h]
    rfl
  · intro w2
    rw [unsubscribe]
    cases w2.publisherAlive <;> rfl

/-- Witness for move_assignment: a live Publisher, the destination holding
armed cell 0, the source holding cell 1; the assignment releases cell 0
and the destination takes cell 1. -/
theorem move_assignment_witness :
    unsubscribe (.ok ()) ⟨true, [⟨.Used, some 1⟩, ⟨.Used, some 2⟩]⟩ ⟨some 0⟩ =
        some (⟨true, [⟨.Empty, none⟩, ⟨.Used, some 2⟩]⟩, ⟨none⟩)
    ∧ moveAssign (.ok ()) ⟨true, [⟨.Used, some 1⟩, ⟨.Used, some 2⟩]⟩
        ⟨some 0⟩ ⟨some 1⟩ false =
        some (⟨true, [⟨.Empty, none⟩, ⟨.Used, some 2⟩]⟩, ⟨some 1⟩, ⟨none⟩) :=
  ⟨rfl,
    (move_assignment (.ok ()) ⟨true, [⟨.Used, some 1⟩, ⟨.Used, some 2⟩]⟩
        ⟨some 0⟩ ⟨some 1⟩).2.1
      ⟨true, [⟨.Empty, none⟩, ⟨.Used, some 2⟩]⟩ ⟨none⟩ rfl⟩

/-- Claim C10: a handle releases its cell at most once: Unsubscribe resets
the weak reference before performing the release, so the handle it leaves
behind is empty, and a later Unsubscribe on that handle (also the one the
destructor performs) leaves every cell of every world unchanged, even a
world in which the cell has been re-claimed by a new subscriber. -/
theorem unsubscribe_at_most_once (clearThrow : Except Unit Unit)
    (w : World) (s : Subscription) (w1 : World) (s1 : Subscription)
    (h : unsubscribe clearThrow w s = some (w1, s1)) :
    s1.registration = none
    ∧ ∀ (clearThrow2 : Except Unit Unit) (w2 : World),
        unsubscribe clearThrow2 w2 s1 = some (w2, ⟨none⟩) := by
  have hreg : s1 = ⟨none⟩ := by
    simp only [unsubscribe] at h
    split at h
    · cases h
      rfl
    · split at h
      · exact Option.noConfusion h
      · split at h
        · cases h
          rfl
        · exact Option.noConfusion h
  subst hreg
  refine ⟨rfl, ?_⟩
  intro clearThrow2 w2
  rw [unsubscribe]
  cases w2.publisherAlive <;> rfl

/-- Witness for unsubscribe_at_most_once: release cell 0, then observe a
second release on the spent handle leaves a world where cell 0 has been
re-claimed (callback 8) unchanged. -/
theorem unsubscribe_at_most_once_witness :
    unsubscribe (.ok ()) ⟨true, [⟨.Used, some 7⟩]⟩ ⟨some 0⟩ =
        some (⟨true, [⟨.Empty, none⟩]⟩, ⟨none⟩)
    ∧ (Subscription.mk none).registration = none
    ∧ unsubscribe (.ok ()) ⟨true, [⟨.Used, some 8⟩]⟩ ⟨none⟩ =
        some (⟨true, [⟨.Used, some 8⟩]⟩, ⟨none⟩) :=
  ⟨rfl,
    (unsubscribe_at_most_once (.ok ()) ⟨true, [⟨.Used, some 7⟩]⟩ ⟨some 0⟩
        ⟨true, [⟨.Empty, none⟩]⟩ ⟨none⟩ rfl).1,
    (unsubscribe_at_most_once (.ok ()) ⟨true, [⟨.Used, some 7⟩]⟩ ⟨some 0⟩
        ⟨true, [⟨.Empty, none⟩]⟩ ⟨none⟩ rfl).2 (.ok ())
      ⟨true, [⟨.Used, some 8⟩]⟩⟩

/-- A pool consisting only of armed cells rejects any further Subscribe:
every TryAllocate fails and the scan falls off the end. -/
theorem subscribe_exhausted (us : List Nat) (cb : Nat) :
    subscribe cb (us.map usedCell) = .error () := by
  induction us with
  | nil => rfl
  | cons u rest ih => simp [subscribe, tryAllocate, usedCell, ih]

/-- Subscribe into a pool of armed cells followed by at least one fresh
cell claims the first fresh cell and reports its index. -/
theorem subscribe_first_free (us : List Nat) (cb : Nat) (n : Nat) :
    subscribe cb (us.map usedCell ++ newSignal (n + 1)) =
      .ok (us.map usedCell ++ usedCell cb :: newSignal n, us.length) := by
  induction us with
  | nil => simp [newSignal, List.replicate_succ, subscribe, tryAllocate, usedCell]
  | cons u rest ih => simp [subscribe, tryAllocate, usedCell, ih]

/-- Subscribing a list of callbacks into a pool of armed cells followed by
enough fresh cells arms them in order, claiming consecutive indices. -/
theorem subscribeAll_fills (cbs : List Nat) (us : List Nat) (k : Nat) :
    subscribeAll cbs (us.map usedCell ++ newSignal (cbs.length + k)) =
      .ok ((us ++ cbs).map usedCell ++ newSignal k,
        List.range' us.length cbs.length) := by
  induction cbs generalizing us with
  | nil => simp [subscribeAll, List.range']
  | cons cb rest ih =>
    have hn : (cb :: rest).length + k = (rest.length + k) + 1 := by
      simp only [List.length_cons]
      omega
    have ih2 := ih (us ++ [cb])
    simp only [List.map_append, List.map_cons, List.map_nil, List.append_assoc,
      List.singleton_append, List.length_append, List.length_cons,
      List.length_nil, Nat.zero_add] at ih2
    rw [subscribeAll, hn, subscribe_first_free us cb (rest.length + k)]
    simp [ih2, List.range'_succ]

/-- Releasing every cell of a fully armed pool restores the freshly
constructed pool, whatever the behaviour of the callback destructors. -/
theorem releaseAll_restores (clearThrow : Except Unit Unit) (cbs : List Nat) :
    releaseAll clearThrow (cbs.map usedCell) = some (newSignal cbs.length) := by
  induction cbs with
  | nil => rfl
  | cons cb rest ih =>
    cases clearThrow <;>
      simp_all [releaseAll, deallocate, usedCell, newSignal, List.replicate_succ]

/-- Claim C4: on a freshly constructed Signal whose capacity equals the
number of callbacks, subscribing them all sequentially succeeds, claiming
the distinct indices 0,...,C-1 in order; one further Subscribe with no
release in between fails with the resource-exhausted result; and the pool
never grows (the final pool still has exactly C cells). -/
theorem subscribe_capacity (cbs : List Nat) (extra : Nat) :
    subscribeAll cbs (newSignal cbs.length) =
      .ok (cbs.map usedCell, List.range cbs.length)
    ∧ subscribe extra (cbs.map usedCell) = .error ()
    ∧ (cbs.map usedCell).length = cbs.length
    ∧ (List.range cbs.length).Nodup := by
  refine ⟨?_, subscribe_exhausted cbs extra, by simp, List.nodup_range _⟩
  have h := subscribeAll_fills cbs [] 0
  simpa [newSignal, List.range_eq_range'] using h

/-- Claim C8: the allocate/release round trip leaks nothing: filling a
fresh pool of capacity C to exhaustion, then releasing all C
subscriptions, restores every cell to Empty with no callback stored —
exactly the freshly constructed pool — after which C further Subscribe
calls all succeed again. -/
theorem allocate_release_roundtrip (clearThrow : Except Unit Unit)
    (cbs cbs2 : List Nat) (hlen : cbs2.length = cbs.length) :
    subscribeAll cbs (newSignal cbs.length) =
      .ok (cbs.map usedCell, List.range cbs.length)
    ∧ releaseAll clearThrow (cbs.map usedCell) = some (newSignal cbs.length)
    ∧ subscribeAll cbs2 (newSignal cbs.length) =
      .ok (cbs2.map usedCell, List.range cbs.length) := by
  refine ⟨?_, releaseAll_restores clearThrow cbs, ?_⟩
  · have h := subscribeAll_fills cbs [] 0
    simpa [newSignal, List.range_eq_range'] using h
  · have h := subscribeAll_fills cbs2 [] 0
    rw [← hlen]
    simpa [newSignal, List.range_eq_range'] using h

/-- Witness for allocate_release_roundtrip with two callbacks each way. -/
theorem allocate_release_roundtrip_witness :
    ([3, 4] : List Nat).length = ([1, 2] : List Nat).length
    ∧ subscribeAll [1, 2] (newSignal 2) =
        .ok ([usedCell 1, usedCell 2], [0, 1])
    ∧ releaseAll (.ok ()) [usedCell 1, usedCell 2] = some (newSignal 2)
    ∧ subscribeAll [3, 4] (newSignal 2) =
        .ok ([usedCell 3, usedCell 4], [0, 1]) := by
  have h := allocate_release_roundtrip (.ok ()) [1, 2] [3, 4] rfl
  exact ⟨rfl, h.1, h.2.1, h.2.2⟩

/-- Program counter of a small-step execution of TryAllocate, CppSignal.h
lines 144-159, at the granularity of its three atomic instructions: the
CAS Empty to Populating (line 148), the callback store (line 152), and the
CAS Populating to Used (line 155). -/
inductive AllocPhase where
  | start
  | store
  | casUsed
  | finished
deriving DecidableEq

/-- One small step of TryAllocate over (program counter, cell).  From
start, the CAS moves an Empty cell to Populating and advances to the
store, or ends the call on any other status; the store writes the callback
while the status is still Populating; the final CAS arms the cell. -/
def allocStep (cb : Nat) : AllocPhase × Registration → AllocPhase × Registration
  | (.start, r) =>
    if r.status = .Empty then (.store, ⟨.Populating, r.callback⟩)
    else (.finished, r)
  | (.store, r) => (.casUsed, ⟨r.status, some cb⟩)
  | (.casUsed, r) => (.finished, ⟨.Used, r.callback⟩)
  | (.finished, r) => (.finished, r)

/-- Running the three small steps of TryAllocate to completion agrees with
the one-shot embedding tryAllocate on the resulting cell. -/
theorem allocStep_run (cb : Nat) (r : Registration) :
    allocStep cb (allocStep cb (allocStep cb (.start, r))) =
      (.finished, (tryAllocate cb r).1) := by
  by_cases h : r.status = .Empty <;> simp [allocStep, tryAllocate, h]

/-- Claim C3 counterexample: two small steps into TryAllocate on a fresh
cell — the CAS to Populating followed by the callback store, before the
CAS to Used — reach a point of the operation where the status is
Populating while the callback is already populated, refuting the claim
that the callback is absent whenever the status is Populating. -/
theorem populating_cell_holds_callback :
    (allocStep 7 (allocStep 7 (.start, ⟨.Empty, none⟩))).2.status = .Populating
    ∧ (allocStep 7 (allocStep 7 (.start, ⟨.Empty, none⟩))).2.callback = some 7
    ∧ (some 7 : Option Nat) ≠ none := by
  refine ⟨rfl, rfl, by simp⟩

/-- Boundary-level state of one cell: the cell together with a flag
recording whether some thread currently holds the cell between the entry
and the finish halves of Emit (it has acquired Emitting and its callback
invocation has not yet returned through the finish phase). -/
structure CellState where
  reg : Registration
  emitHeld : Bool
deriving DecidableEq

/-- The atomic boundary transitions of one cell, each derived from the
corresponding embedded operation: a whole TryAllocate, a whole sequential
Deallocate, the entry half of Emit (acquiring Emitting), a skipped Emit,
and the finish half of Emit (after the callback returned). -/
inductive CellStep : CellState → CellState → Prop where
  | alloc (cb : Nat) (s : CellState) :
      CellStep s ⟨(tryAllocate cb s.reg).1, s.emitHeld⟩
  | dealloc (clearThrow : Except Unit Unit) (s : CellState) (r1 : Registration)
      (h : deallocate clearThrow s.reg = some r1) :
      CellStep s ⟨r1, s.emitHeld⟩
  | emitAcquire (s : CellState) (r1 : Registration) (hf : s.emitHeld = false)
      (h : emitEnter s.reg = .acquired r1) :
      CellStep s ⟨r1, true⟩
  | emitSkip (s : CellState) (h : emitEnter s.reg = .skipped) :
      CellStep s s
  | emitRelease (clearThrow : Except Unit Unit) (s : CellState)
      (hf : s.emitHeld = true) :
      CellStep s ⟨emitFinish clearThrow s.reg, false⟩

/-- The cell states reachable from a fresh cell by boundary transitions. -/
inductive CellReachable : CellState → Prop where
  | init : CellReachable ⟨⟨.Empty, none⟩, false⟩
  | step {s t : CellState} (hs : CellReachable s) (hst : CellStep s t) :
      CellReachable t

/-- The callback/status correspondence is preserved by every boundary
transition of a cell. -/
theorem cellStep_preserves_invariant (u t : CellState) (hst : CellStep u t)
    (ih : u.reg.callback ≠ none ↔
      (u.reg.status = .Used ∨ u.reg.status = .Emitting
        ∨ u.reg.status = .Destroying)) :
    t.reg.callback ≠ none ↔
      (t.reg.status = .Used ∨ t.reg.status = .Emitting
        ∨ t.reg.status = .Destroying) := by
  obtain ⟨⟨st, cb⟩, held⟩ := u
  cases hst with
  | alloc cb2 =>
    cases st <;> simp_all [tryAllocate]
  | dealloc clearThrow r1 hd =>
    cases st <;> cases clearThrow <;> simp_all [deallocate]
    all_goals subst_vars
    all_goals simp_all
  | emitAcquire r1 hf he =>
    cases st <;> simp_all [emitEnter]
    all_goals subst_vars
    all_goals simp_all
  | emitSkip he => exact ih
  | emitRelease clearThrow hf =>
    cases st <;> cases clearThrow <;> simp_all [emitFinish]

/-- Claim C3 (amended): at every boundary between the atomic transitions of
TryAllocate, Emit and Deallocate — every cell state reachable from a fresh
cell — the callback is populated exactly when the status is Used, Emitting
or Destroying (the Destroying states reachable at a boundary are the
deferred-release ones); in particular the callback is absent whenever the
status is Empty.  Within TryAllocate itself the allocating thread stores
the callback while the status is still Populating, so mid-operation a
Populating cell does hold a callback. -/
theorem callback_iff_status_armed (s : CellState) (h : CellReachable s) :
    s.reg.callback ≠ none ↔
      (s.reg.status = .Used ∨ s.reg.status = .Emitting
        ∨ s.reg.status = .Destroying) := by
  induction h with
  | init => simp
  | step hs hst ih => exact cellStep_preserves_invariant _ _ hst ih

/-- Witness for callback_iff_status_armed at the cell reached by one
TryAllocate from a fresh cell. -/
theorem callback_iff_status_armed_witness :
    ((⟨⟨.Used, some 5⟩, false⟩ : CellState).reg.callback ≠ none ↔
      ((⟨⟨.Used, some 5⟩, false⟩ : CellState).reg.status = .Used
        ∨ (⟨⟨.Used, some 5⟩, false⟩ : CellState).reg.status = .Emitting
        ∨ (⟨⟨.Used, some 5⟩, false⟩ : CellState).reg.status = .Destroying)) :=
  callback_iff_status_armed ⟨⟨.Used, some 5⟩, false⟩
    (CellReachable.step CellReachable.init
      (CellStep.alloc 5 ⟨⟨.Empty, none⟩, false⟩))
